import Mathlib

/-!
# Verification of the iQSuite Python SDK core (client.py / models.py)

Shallow embedding of the response-normalization layer (`_handle_response`),
the typed envelope mappers (pydantic models in `models.py`), the MIME
pre-flight checks of the upload calls, and the task-polling loops of
`create_index_and_poll` / `add_document_and_poll`.

JSON values are modelled by an inductive `Json`; an HTTP response carries a
status code and an `Option Json` body (`none` = body not decodable as JSON).
Python exceptions become constructors of `SdkError`, one per distinct raise
site of the source, carrying the data interpolated into the source's message
strings.  Mutable session headers become explicit state passed in and out of
the upload calls, together with a count of HTTP requests performed.
-/

/-- A decoded JSON value (Python object produced by `response.json()`). -/
inductive Json where
  | null
  | bool (b : Bool)
  | num (n : Int)
  | str (s : String)
  | arr (xs : List Json)
  | obj (kvs : List (String × Json))

/-- Dictionary lookup on an association list (first binding wins, as in a
Python `dict` where keys are unique). -/
def lookupKey (k : String) : List (String × Json) → Option Json
  | [] => none
  | (k', v) :: rest => if k' = k then some v else lookupKey k rest

/-- Python truthiness of a decoded JSON value (`bool(x)`). -/
def Json.truthy : Json → Bool
  | .null => false
  | .bool b => b
  | .num n => n != 0
  | .str s => s != ""
  | .arr [] => false
  | .arr (_ :: _) => true
  | .obj [] => false
  | .obj (_ :: _) => true

/-- An HTTP response as seen by `_handle_response`: the status code and the
result of attempting `response.json()` (`none` when the body is not valid
JSON, in which case `response.json()` raises `ValueError`). -/
structure HttpResponse where
  status : Nat
  body : Option Json

/-- The string `str(e)` of the `requests.exceptions.HTTPError` raised by
`response.raise_for_status()` for a given status.  Its exact text is owned by
the `requests` library (an external collaborator); no claim depends on its
content, only on where the client uses it. -/
def httpErrorString (status : Nat) : String :=
  toString status ++ " Error"

/-- One constructor per distinct exception raise site of the SDK, carrying the
data the source interpolates into the exception:

* `invalidJson`        — `APIError("Invalid JSON response from API")` (client.py:48)
* `apiErrorField e s`  — `APIError(f"API error: {data['error']}", status_code=s)` (client.py:51)
* `authenticationError` — `AuthenticationError("Invalid API key")` (client.py:64)
* `validationError m s` — `APIError(f"Validation error: {m}", status_code=s)` (client.py:69)
* `httpStatusError s`  — `APIError(f"HTTP {s} error: ...", status_code=s)` (client.py:77)
* `unsupportedFileType m` — `ValueError(f"Unsupported file type: {m}. Supported types are: PDF, DOC, DOCX, JPG, PNG, TIFF, BMP")` (client.py:112, client.py:145)
* `taskFailed st`      — `APIError(f"Task failed with status: {st}")` (client.py:182, client.py:208)
* `maxRetriesReached n` — `APIError(f"Maximum retries ({n}) reached while polling task status")` (client.py:187, client.py:213)
* `schemaError f`      — pydantic `ValidationError` naming required field `f`
* `keyError k`         — raw Python `KeyError(k)` from `d[k]` on a dict without `k`
* `typeError`          — raw Python `TypeError`/`AttributeError` (subscripting or
  attribute access on a non-dict JSON value)
-/
inductive SdkError where
  | invalidJson
  | apiErrorField (err : Json) (statusCode : Nat)
  | authenticationError
  | validationError (message : Json) (statusCode : Nat)
  | httpStatusError (statusCode : Nat)
  | unsupportedFileType (mime : String)
  | taskFailed (status : String)
  | maxRetriesReached (n : Nat)
  | schemaError (field : String)
  | keyError (key : String)
  | typeError

/-- `IQSuiteClient._handle_response` (client.py:42-81).

`response.raise_for_status()` raises `requests.exceptions.HTTPError` exactly
when `400 ≤ status < 600`; only that exception is caught by the outer
`except` clause, so SDK errors raised in the `try` body propagate directly.

In the `try` body: a JSON decode failure raises
`APIError("Invalid JSON response from API")`; a decoded dict with a truthy
`error` key raises `APIError(f"API error: {...}", status_code=...)`; and both
remaining branches (`if isinstance(data, dict) and "data" in data: return
data` and `return data`) return the decoded body itself — the envelope is
NOT unwrapped.

In the `except` handler: 401 raises `AuthenticationError("Invalid API key")`;
422 re-decodes the body and, when that succeeds on a dict, raises
`APIError(f"Validation error: {error_data.get('message', str(e))}", ...)`
(the default is `str(e)`, not a fall-through); a `ValueError` from the decode
is swallowed by `pass` and falls to the generic
`APIError(f"HTTP {status} error: {str(e)}", ...)`.  A 422 body decoding to a
non-dict makes `error_data.get` raise `AttributeError` (modelled
`typeError`). -/
def handle_response (resp : HttpResponse) : Except SdkError Json :=
  if 400 ≤ resp.status ∧ resp.status < 600 then
    if resp.status = 401 then
      .error .authenticationError
    else if resp.status = 422 then
      match resp.body with
      | some (.obj kvs) =>
          let error_message :=
            (lookupKey "message" kvs).getD (.str (httpErrorString resp.status))
          .error (.validationError error_message resp.status)
      | some _ => .error .typeError
      | none => .error (.httpStatusError resp.status)
    else
      .error (.httpStatusError resp.status)
  else
    match resp.body with
    | none => .error .invalidJson
    | some data =>
        match data with
        | .obj kvs =>
            match lookupKey "error" kvs with
            | some e =>
                if e.truthy then .error (.apiErrorField e resp.status)
                else .ok data
            | none => .ok data
        | _ => .ok data

/-- The claim's reading of the normalizer ("unwrap `data` when present"),
written from the spec's words for comparison with `handle_response`:
if the decoded body is a mapping containing a `data` key, return the value
under `data`; otherwise behave as the source does. -/
def handle_response_unwrapping (resp : HttpResponse) : Except SdkError Json :=
  match handle_response resp with
  | .ok (.obj kvs) =>
      match lookupKey "data" kvs with
      | some v => .ok v
      | none => .ok (.obj kvs)
  | r => r

example :
    handle_response ⟨200, some (.obj [("data", .str "x")])⟩ =
      .ok (.obj [("data", .str "x")]) := rfl

example :
    handle_response ⟨200, some (.obj [("error", .str "quota exceeded")])⟩ =
      .error (.apiErrorField (.str "quota exceeded") 200) := rfl

example : handle_response ⟨200, none⟩ = .error .invalidJson := rfl

example : handle_response ⟨500, none⟩ = .error (.httpStatusError 500) := rfl

example : handle_response ⟨401, some (.obj [("error", .str "x")])⟩ =
    .error .authenticationError := rfl

example :
    handle_response ⟨422, some (.obj [("message", .str "field X required")])⟩ =
      .error (.validationError (.str "field X required") 422) := rfl

example :
    handle_response ⟨422, some (.obj [("foo", .str "bar")])⟩ =
      .error (.validationError (.str (httpErrorString 422)) 422) := rfl

/-! ## Typed envelope mapper (models.py, pydantic ≥ 2) -/

/-- Validation of a pydantic `str` field (pydantic v2 rejects non-string
JSON values for `str`-typed fields). -/
def asStr : Json → Option String
  | .str s => some s
  | _ => none

/-- `models.TaskStatus` (models.py:55-60): required `status : str`, optional
`task_id : Optional[str] = None`, `extra = "allow"` keeps unknown fields. -/
structure TaskStatus where
  status : String
  task_id : Option String
  extra : List (String × Json)

/-- `models.TaskResponseData` (models.py:63-71): required `message`,
`task_id`, `check_status`, all `str`; unknown extra fields kept. -/
structure TaskResponseData where
  message : String
  task_id : String
  check_status : String
  extra : List (String × Json)

/-- `models.TaskResponse` (models.py:74-80): wrapper holding `data`. -/
structure TaskResponse where
  data : TaskResponseData

/-- `models.Document` (models.py:25-33): required `id : str`; optional
`created_at` / `updated_at` timestamps (their datetime parsing is owned by
pydantic and not relied on by any claim — the raw JSON value is kept). -/
structure Document where
  id : String
  created_at : Option Json
  updated_at : Option Json
  extra : List (String × Json)

/-- `models.DocumentListData` (models.py:36-43): required
`documents : List[Document]` and `index : str`. -/
structure DocumentListData where
  documents : List Document
  index : String
  extra : List (String × Json)

/-- `models.DocumentListResponse` (models.py:46-52): wrapper holding `data`. -/
structure DocumentListResponse where
  data : DocumentListData

/-- Validation of one pydantic model field of type `str`: absent or
non-string → `ValidationError` naming the field. -/
def requireStr (kvs : List (String × Json)) (field : String) :
    Except SdkError String :=
  match lookupKey field kvs with
  | some v =>
      match asStr v with
      | some s => .ok s
      | none => .error (.schemaError field)
  | none => .error (.schemaError field)

/-- Validation of one pydantic `Optional[str] = None` field: absent or JSON
null → `none`; a non-string, non-null value → `ValidationError`. -/
def optionalStr (kvs : List (String × Json)) (field : String) :
    Except SdkError (Option String) :=
  match lookupKey field kvs with
  | some .null => .ok none
  | some v =>
      match asStr v with
      | some s => .ok (some s)
      | none => .error (.schemaError field)
  | none => .ok none

/-- An optional passthrough field (timestamps): absent or null → `none`. -/
def optionalField (kvs : List (String × Json)) (field : String) : Option Json :=
  match lookupKey field kvs with
  | some .null => none
  | some v => some v
  | none => none

/-- The extra fields kept by `extra = "allow"`: every key not in `known`. -/
def extraFields (kvs : List (String × Json)) (known : List String) :
    List (String × Json) :=
  kvs.filter (fun kv => !known.contains kv.1)

/-- `TaskStatus(**data)` (client.py:222): keyword-expansion requires a dict
(anything else raises `TypeError` in Python), then pydantic validation. -/
def parseTaskStatus (j : Json) : Except SdkError TaskStatus :=
  match j with
  | .obj kvs => do
      let status ← requireStr kvs "status"
      let task_id ← optionalStr kvs "task_id"
      .ok ⟨status, task_id, extraFields kvs ["status", "task_id"]⟩
  | _ => .error .typeError

/-- pydantic validation of `TaskResponseData`. -/
def parseTaskResponseData (j : Json) : Except SdkError TaskResponseData :=
  match j with
  | .obj kvs => do
      let message ← requireStr kvs "message"
      let task_id ← requireStr kvs "task_id"
      let check_status ← requireStr kvs "check_status"
      .ok ⟨message, task_id, check_status,
        extraFields kvs ["message", "task_id", "check_status"]⟩
  | _ => .error (.schemaError "data")

/-- pydantic validation of one `Document`. -/
def parseDocument (j : Json) : Except SdkError Document :=
  match j with
  | .obj kvs => do
      let i ← requireStr kvs "id"
      .ok ⟨i, optionalField kvs "created_at", optionalField kvs "updated_at",
        extraFields kvs ["id", "created_at", "updated_at"]⟩
  | _ => .error (.schemaError "documents")

/-- Element-wise validation of `List[Document]`: the first element that fails
validation fails the whole list (no partial results). -/
def parseDocuments : List Json → Except SdkError (List Document)
  | [] => .ok []
  | j :: rest => do
      let d ← parseDocument j
      let ds ← parseDocuments rest
      .ok (d :: ds)

/-- pydantic validation of `DocumentListData`. -/
def parseDocumentListData (j : Json) : Except SdkError DocumentListData :=
  match j with
  | .obj kvs => do
      let docs ←
        match lookupKey "documents" kvs with
        | some (.arr xs) => parseDocuments xs
        | some _ => .error (.schemaError "documents")
        | none => .error (.schemaError "documents")
      let index ← requireStr kvs "index"
      .ok ⟨docs, index, extraFields kvs ["documents", "index"]⟩
  | _ => .error (.schemaError "data")

/-- Python `d[k]`: a dict without key `k` raises `KeyError(k)`; subscripting a
non-dict JSON value with a string raises `TypeError`. -/
def pyGetItem (j : Json) (k : String) : Except SdkError Json :=
  match j with
  | .obj kvs =>
      match lookupKey k kvs with
      | some v => .ok v
      | none => .error (.keyError k)
  | _ => .error .typeError

/-- `IQSuiteClient.get_documents` (client.py:93-98): normalize the response,
then `DocumentListResponse(data=response_data["data"])` — the raw `["data"]`
subscript runs before pydantic validation. -/
def get_documents (resp : HttpResponse) : Except SdkError DocumentListResponse := do
  let response_data ← handle_response resp
  let d ← pyGetItem response_data "data"
  let dld ← parseDocumentListData d
  .ok ⟨dld⟩

/-! ## Upload calls: MIME pre-flight, header toggling (client.py:100-164) -/

/-- `suffix.data.isSuffixOf s.data`: does `s` end with `suffix`? -/
def hasSuffix (s suffix : String) : Bool :=
  List.isSuffixOf suffix.data s.data

/-- Modelled from the spec: `get_mime_type` is imported from `iqsuite.utils`,
whose source file is not part of this snapshot; the spec says upload calls
validate "the filename's inferred MIME type".  Standard extension-to-MIME
inference (lowercase extensions) for the types the client and spec mention. -/
def get_mime_type (filename : String) : String :=
  if hasSuffix filename ".pdf" then "application/pdf"
  else if hasSuffix filename ".doc" then "application/msword"
  else if hasSuffix filename ".docx" then
    "application/vnd.openxmlformats-officedocument.wordprocessingml.document"
  else if hasSuffix filename ".ppt" then "application/vnd.ms-powerpoint"
  else if hasSuffix filename ".pptx" then
    "application/vnd.openxmlformats-officedocument.presentationml.presentation"
  else if hasSuffix filename ".jpg" ∨ hasSuffix filename ".jpeg" then "image/jpeg"
  else if hasSuffix filename ".png" then "image/png"
  else if hasSuffix filename ".tiff" ∨ hasSuffix filename ".tif" then "image/tiff"
  else if hasSuffix filename ".bmp" then "image/bmp"
  else if hasSuffix filename ".gif" then "image/gif"
  else "application/octet-stream"

/-- The `supported_types` set of `create_index` (client.py:103-109):
document formats only, no images. -/
def create_index_supported_types : List String :=
  ["application/pdf",
   "application/msword",
   "application/vnd.openxmlformats-officedocument.wordprocessingml.document",
   "application/vnd.ms-powerpoint",
   "application/vnd.openxmlformats-officedocument.presentationml.presentation"]

/-- The `supported_types` set of `add_document` (client.py:134-142):
PDF/DOC/DOCX plus four image formats, no PPT/PPTX. -/
def add_document_supported_types : List String :=
  ["application/pdf",
   "application/msword",
   "application/vnd.openxmlformats-officedocument.wordprocessingml.document",
   "image/jpeg",
   "image/png",
   "image/tiff",
   "image/bmp"]

/-- The MIME types corresponding to the names in the fixed error-message
literal "Supported types are: PDF, DOC, DOCX, JPG, PNG, TIFF, BMP" that both
upload calls interpolate into their `ValueError` (client.py:113-114 and
client.py:146-147) — the message text is identical at both sites and does not
depend on the operation's actual `supported_types` set. -/
def errorMessageNamedTypes : List String :=
  ["application/pdf",
   "application/msword",
   "application/vnd.openxmlformats-officedocument.wordprocessingml.document",
   "image/jpeg",
   "image/png",
   "image/tiff",
   "image/bmp"]

/-- Session headers (`self.session.headers`), an association list. -/
abbrev Headers := List (String × String)

/-- `self.session.headers.pop(k, None)`: remove the binding of `k`. -/
def removeHeader (k : String) (hs : Headers) : Headers :=
  hs.filter (fun kv => kv.1 ≠ k)

/-- Outcome of one upload call: the returned value or raised error, the
session headers after the call, and how many HTTP requests were sent. -/
structure UploadOutcome (α : Type) where
  result : Except SdkError α
  headers : Headers
  httpCalls : Nat

/-- `IQSuiteClient.create_index` (client.py:100-127).

The MIME pre-flight raises `ValueError` before any network traffic.  After
it passes, `original_headers = self.session.headers.copy()` is taken, the
`Content-Type` header is popped for the multipart POST (the transport sees
the popped header set), and the `finally` clause reinstates
`original_headers` on both the return path and every raise path of the `try`
body.  The body normalizes the response, subscripts `response_data["data"]`
raw, and validates `TaskResponse(data=...)`. -/
def create_index (headers : Headers) (filename : String)
    (transport : Headers → HttpResponse) : UploadOutcome TaskResponse :=
  let mime_type := get_mime_type filename
  if mime_type ∉ create_index_supported_types then
    { result := .error (.unsupportedFileType mime_type),
      headers := headers, httpCalls := 0 }
  else
    let original_headers := headers
    let response := transport (removeHeader "Content-Type" headers)
    let body : Except SdkError TaskResponse := do
      let response_data ← handle_response response
      let d ← pyGetItem response_data "data"
      let trd ← parseTaskResponseData d
      .ok ⟨trd⟩
    { result := body, headers := original_headers, httpCalls := 1 }

/-- `IQSuiteClient.add_document` (client.py:129-164): same shape as
`create_index` but with its own `supported_types` set and an extra form
field (which has no observable effect in the model). -/
def add_document (headers : Headers) (filename : String)
    (transport : Headers → HttpResponse) : UploadOutcome TaskResponse :=
  let mime_type := get_mime_type filename
  if mime_type ∉ add_document_supported_types then
    { result := .error (.unsupportedFileType mime_type),
      headers := headers, httpCalls := 0 }
  else
    let original_headers := headers
    let response := transport (removeHeader "Content-Type" headers)
    let body : Except SdkError TaskResponse := do
      let response_data ← handle_response response
      let d ← pyGetItem response_data "data"
      let trd ← parseTaskResponseData d
      .ok ⟨trd⟩
    { result := body, headers := original_headers, httpCalls := 1 }

/-! ## Task polling (client.py:166-222) -/

/-- `IQSuiteClient.get_task_status` (client.py:217-222): GET the status URL,
normalize, then `TaskStatus(**data)`. -/
def get_task_status (resp : HttpResponse) : Except SdkError TaskStatus := do
  let data ← handle_response resp
  parseTaskStatus data

/-- The polling loop shared by `create_index_and_poll` (client.py:176-189)
and `add_document_and_poll` (client.py:202-215), with the `retries` counter
made explicit and `fuel = max_retries - retries` as the recursion measure
(`while retries < max_retries` holds exactly when `fuel > 0`):

```python
while retries < max_retries:
    status = self.get_task_status(task_id)
    if status.status == "completed": return response, status
    elif status.status == "failed":
        raise APIError(f"Task failed with status: {status.status}")
    time.sleep(poll_interval)      # no observable effect in the model
    retries += 1
raise APIError(f"Maximum retries ({max_retries}) reached while polling task status")
```

`checks i` is the outcome of the status check performed when `retries = i`
(an `SdkError` from the check propagates immediately — nothing catches it,
so it short-circuits the loop).  The second component counts the status
checks performed. -/
def pollAux (checks : Nat → Except SdkError TaskStatus) (max_retries : Nat) :
    Nat → Nat → Except SdkError TaskStatus × Nat
  | 0, _ => (.error (.maxRetriesReached max_retries), 0)
  | fuel + 1, retries =>
      match checks retries with
      | .error e => (.error e, 1)
      | .ok status =>
          if status.status = "completed" then (.ok status, 1)
          else if status.status = "failed" then
            (.error (.taskFailed status.status), 1)
          else
            let r := pollAux checks max_retries fuel (retries + 1)
            (r.1, r.2 + 1)

/-- The polling loop entered with `retries = 0`. -/
def pollTask (checks : Nat → Except SdkError TaskStatus) (max_retries : Nat) :
    Except SdkError TaskStatus × Nat :=
  pollAux checks max_retries max_retries 0

/-- `IQSuiteClient.create_index_and_poll` (client.py:166-189): submit through
`create_index`, then poll.  `statusChecks i` is the HTTP response of the
`i`-th status poll (each poll goes through `get_task_status`, i.e. through
the normalizer and the `TaskStatus` mapper).  Returns the call outcome and
the number of status checks performed. -/
def create_index_and_poll (headers : Headers) (filename : String)
    (transport : Headers → HttpResponse) (statusChecks : Nat → HttpResponse)
    (max_retries : Nat) :
    Except SdkError (TaskResponse × TaskStatus) × Nat :=
  match (create_index headers filename transport).result with
  | .error e => (.error e, 0)
  | .ok response =>
      match pollTask (fun i => get_task_status (statusChecks i)) max_retries with
      | (.ok status, n) => (.ok (response, status), n)
      | (.error e, n) => (.error e, n)

/-- `IQSuiteClient.add_document_and_poll` (client.py:191-215): identical loop
after submitting through `add_document`. -/
def add_document_and_poll (headers : Headers) (filename : String)
    (transport : Headers → HttpResponse) (statusChecks : Nat → HttpResponse)
    (max_retries : Nat) :
    Except SdkError (TaskResponse × TaskStatus) × Nat :=
  match (add_document headers filename transport).result with
  | .error e => (.error e, 0)
  | .ok response =>
      match pollTask (fun i => get_task_status (statusChecks i)) max_retries with
      | (.ok status, n) => (.ok (response, status), n)
      | (.error e, n) => (.error e, n)

/-- The exception message rendered by the source for the poll-loop errors:
`f"Task failed with status: {status.status}"` (client.py:182, client.py:208)
and `f"Maximum retries ({max_retries}) reached while polling task status"`
(client.py:187-188, client.py:213-214); both are `APIError`s distinguished
only by these messages. -/
def pollErrorMessage : SdkError → Option String
  | .taskFailed st => some ("Task failed with status: " ++ st)
  | .maxRetriesReached n =>
      some ("Maximum retries (" ++ toString n ++ ") reached while polling task status")
  | _ => none

/-! ## Theorems: response normalizer (claims C1-C4) -/

/-- On a response whose status is outside the 4xx/5xx range (so
`raise_for_status` does not fire) and whose body decodes to a mapping
without a truthy `error` key, `_handle_response` returns the whole mapping. -/
theorem handle_response_ok (status : Nat) (kvs : List (String × Json))
    (hst : ¬(400 ≤ status ∧ status < 600))
    (herr : ∀ e, lookupKey "error" kvs = some e → e.truthy = false) :
    handle_response ⟨status, some (.obj kvs)⟩ = .ok (.obj kvs) := by
  simp only [handle_response, if_neg hst]
  cases h : lookupKey "error" kvs with
  | none => simp [h]
  | some e => simp [h, herr e h]

/-- Claim C1, counterexample: on status 200 with body `{"data": "x"}` (a 2xx
response, no `error` key, mapping containing `data`), `_handle_response`
returns the whole mapping `{"data": "x"}` and not the value `"x"` stored
under `data` — the claim as stated is false of `client.py:57-58`, whose
`if isinstance(data, dict) and "data" in data:` branch returns `data`
itself. -/
theorem C1_counterexample :
    handle_response ⟨200, some (.obj [("data", .str "x")])⟩ =
      .ok (.obj [("data", .str "x")]) ∧
    handle_response ⟨200, some (.obj [("data", .str "x")])⟩ ≠
      .ok (.str "x") :=
  ⟨rfl, nofun⟩

/-- Claim C1 (amended): for every response with status outside the 4xx/5xx
range whose body decodes to a JSON mapping containing a `data` key and no
truthy `error` key, `_handle_response` returns the WHOLE mapping — the
`data` envelope is not unwrapped (the callers re-extract `data`
themselves). -/
theorem C1_whole_mapping_returned (status : Nat) (kvs : List (String × Json))
    (v : Json) (hst : ¬(400 ≤ status ∧ status < 600))
    (hdata : lookupKey "data" kvs = some v)
    (herr : ∀ e, lookupKey "error" kvs = some e → e.truthy = false) :
    handle_response ⟨status, some (.obj kvs)⟩ = .ok (.obj kvs) :=
  handle_response_ok status kvs hst herr

/-- Witness for C1 at status 200, body `{"data": "x"}`. -/
theorem C1_whole_mapping_returned_witness :
    handle_response ⟨200, some (.obj [("data", .str "x")])⟩ =
      .ok (.obj [("data", .str "x")]) :=
  C1_whole_mapping_returned 200 [("data", .str "x")] (.str "x")
    (by omega) rfl (fun _ h => Option.noConfusion h)

/-- Claim C2, counterexample: for status 500 with body `{"error": "boom"}`
(a truthy `error` key), `_handle_response` raises the generic
`APIError(f"HTTP 500 error: ...")` — not an `ApiError` carrying the
server-supplied message — and for status 401 with the same body it raises
`AuthenticationError`, which is not an `ApiError` at all; the claim's
"for every HTTP status code ... including when it is in the 4xx/5xx range"
is false, because `raise_for_status()` fires before the `error` key is ever
examined. -/
theorem C2_counterexample :
    handle_response ⟨500, some (.obj [("error", .str "boom")])⟩ =
      .error (.httpStatusError 500) ∧
    SdkError.httpStatusError 500 ≠ .apiErrorField (.str "boom") 500 ∧
    handle_response ⟨401, some (.obj [("error", .str "boom")])⟩ =
      .error .authenticationError :=
  ⟨rfl, nofun, rfl⟩

/-- Claim C2 (amended): for every status OUTSIDE the 4xx/5xx range — notably
every 2xx, including a 200 used by a server to report an error — and every
body decoding to a mapping with a truthy `error` key, `_handle_response`
fails with `APIError(f"API error: {data['error']}", status_code=status)`
carrying the server-supplied error value and the status code; within
4xx/5xx the status-based classification takes precedence and the `error`
key is never examined. -/
theorem C2_truthy_error_apierror (status : Nat) (kvs : List (String × Json))
    (e : Json) (hst : ¬(400 ≤ status ∧ status < 600))
    (he : lookupKey "error" kvs = some e) (ht : e.truthy = true) :
    handle_response ⟨status, some (.obj kvs)⟩ =
      .error (.apiErrorField e status) := by
  simp only [handle_response, if_neg hst]
  simp [he, ht]

/-- Witness for C2 at status 200, body `{"error": "quota exceeded"}`. -/
theorem C2_truthy_error_apierror_witness :
    handle_response ⟨200, some (.obj [("error", .str "quota exceeded")])⟩ =
      .error (.apiErrorField (.str "quota exceeded") 200) :=
  C2_truthy_error_apierror 200 [("error", .str "quota exceeded")]
    (.str "quota exceeded") (by omega) rfl (by decide)

/-- Claim C3, counterexample: for status 500 with an undecodable body,
`_handle_response` raises the generic `APIError(f"HTTP 500 error: ...")`,
not the `APIError("Invalid JSON response from API")` that plays the role of
`MalformedResponse`; and for status 401 with an undecodable body it raises
`AuthenticationError`.  The claim's "holds for every status code (2xx as
well as 4xx/5xx)" is false: `raise_for_status()` fires before the body is
ever decoded. -/
theorem C3_counterexample :
    handle_response ⟨500, none⟩ = .error (.httpStatusError 500) ∧
    SdkError.httpStatusError 500 ≠ .invalidJson ∧
    handle_response ⟨401, none⟩ = .error .authenticationError :=
  ⟨rfl, nofun, rfl⟩

/-- Claim C3 (amended): a response body that is not decodable as JSON makes
`_handle_response` fail with `APIError("Invalid JSON response from API")`
(the `MalformedResponse` classification) exactly when the status is outside
the 4xx/5xx range; inside that range the status classification takes
precedence: 401 gives `AuthenticationError` and every other 4xx/5xx status
(422 included, since its body re-decode fails and is passed) gives the
generic `APIError(f"HTTP {status} error: ...")`. -/
theorem C3_undecodable_body (status : Nat) :
    (¬(400 ≤ status ∧ status < 600) →
      handle_response ⟨status, none⟩ = .error .invalidJson) ∧
    (400 ≤ status → status < 600 → status ≠ 401 →
      handle_response ⟨status, none⟩ = .error (.httpStatusError status)) ∧
    handle_response ⟨401, none⟩ = .error .authenticationError := by
  refine ⟨fun h => ?_, fun h1 h2 h3 => ?_, rfl⟩
  · simp only [handle_response, if_neg h]
  · by_cases h4 : status = 422
    · subst h4; rfl
    · simp only [handle_response,
        if_pos (show 400 ≤ status ∧ status < 600 from ⟨h1, h2⟩),
        if_neg h3, if_neg h4]

/-- Witness for C3 at statuses 200 and 500 with undecodable bodies. -/
theorem C3_undecodable_body_witness :
    handle_response ⟨200, none⟩ = .error .invalidJson ∧
    handle_response ⟨500, none⟩ = .error (.httpStatusError 500) :=
  ⟨(C3_undecodable_body 200).1 (by omega),
   (C3_undecodable_body 500).2.1 (by omega) (by omega) (by omega)⟩

/-- Claim C4, counterexample: for status 422 with the decodable body
`{"foo": "bar"}` (no `message` field), `_handle_response` does NOT fall
through to the generic `APIError(f"HTTP 422 error: ...")`: the source's
`error_data.get("message", str(e))` substitutes `str(e)` as the default and
still raises `APIError(f"Validation error: {str(e)}", ...)` — the
`ValidationError` classification.  The fall-through (`except ValueError:
pass`) happens only when the body cannot be decoded at all. -/
theorem C4_counterexample :
    handle_response ⟨422, some (.obj [("foo", .str "bar")])⟩ =
      .error (.validationError (.str (httpErrorString 422)) 422) ∧
    SdkError.validationError (.str (httpErrorString 422)) 422 ≠
      .httpStatusError 422 :=
  ⟨rfl, nofun⟩

/-- Claim C4 (amended): for a 422 response whose body decodes to a mapping
with a `message` field, `_handle_response` fails with
`APIError(f"Validation error: {message}", status_code=422)` carrying exactly
that message; when the `message` field is absent from the decoded mapping it
STILL fails with the `ValidationError` classification, carrying `str(e)`
(the `HTTPError`'s own text) as the substituted message; only an
undecodable body falls through to the generic
`APIError(f"HTTP 422 error: ...")`. -/
theorem C4_status_422 (kvs : List (String × Json)) :
    (∀ m, lookupKey "message" kvs = some m →
      handle_response ⟨422, some (.obj kvs)⟩ =
        .error (.validationError m 422)) ∧
    (lookupKey "message" kvs = none →
      handle_response ⟨422, some (.obj kvs)⟩ =
        .error (.validationError (.str (httpErrorString 422)) 422)) ∧
    handle_response ⟨422, none⟩ = .error (.httpStatusError 422) := by
  refine ⟨fun m hm => ?_, fun hm => ?_, rfl⟩
  · have h : handle_response ⟨422, some (.obj kvs)⟩ =
        .error (.validationError ((lookupKey "message" kvs).getD
          (.str (httpErrorString 422))) 422) := rfl
    rw [h, hm]; exact rfl
  · have h : handle_response ⟨422, some (.obj kvs)⟩ =
        .error (.validationError ((lookupKey "message" kvs).getD
          (.str (httpErrorString 422))) 422) := rfl
    rw [h, hm]; exact rfl

/-- Witness for C4 at body `{"message": "field X required"}` (message
present) and at body `{"foo": "bar"}` (message absent). -/
theorem C4_status_422_witness :
    handle_response ⟨422, some (.obj [("message", .str "field X required")])⟩ =
      .error (.validationError (.str "field X required") 422) ∧
    handle_response ⟨422, some (.obj [("foo", .str "bar")])⟩ =
      .error (.validationError (.str (httpErrorString 422)) 422) :=
  ⟨(C4_status_422 [("message", .str "field X required")]).1 _ rfl,
   (C4_status_422 [("foo", .str "bar")]).2.1 rfl⟩

/-! ## Theorems: task poller (claims C5, C6) -/

/-- A status-check outcome that keeps the poll loop going: a `TaskStatus`
that is neither `"completed"` nor `"failed"`. -/
def pendingCheck (e : Except SdkError TaskStatus) : Prop :=
  ∃ st, e = .ok st ∧ st.status ≠ "completed" ∧ st.status ≠ "failed"

/-- A poll loop all of whose checks stay pending exhausts its fuel and
raises the max-retries `APIError`, performing one check per unit of fuel. -/
theorem pollAux_pending_exhausts (checks : Nat → Except SdkError TaskStatus)
    (m : Nat) (hp : ∀ i, pendingCheck (checks i)) :
    ∀ fuel retries, pollAux checks m fuel retries =
      (.error (.maxRetriesReached m), fuel) := by
  intro fuel
  induction fuel with
  | zero => intro retries; rfl
  | succ f ih =>
      intro retries
      obtain ⟨st, hc, h1, h2⟩ := hp retries
      simp only [pollAux, hc, if_neg h1, if_neg h2, ih (retries + 1)]

/-- If the checks at offsets `0, …, j-1` from `retries` stay pending and the
check at offset `j` returns a terminal status, the loop stops right there
having performed `j + 1` checks: `"completed"` yields the final snapshot and
`"failed"` raises the `TaskFailed` `APIError`. -/
theorem pollAux_stops (checks : Nat → Except SdkError TaskStatus) (m : Nat) :
    ∀ (j fuel retries : Nat) (st : TaskStatus), j < fuel →
    (∀ i, i < j → pendingCheck (checks (retries + i))) →
    checks (retries + j) = .ok st →
    (st.status = "completed" →
      pollAux checks m fuel retries = (.ok st, j + 1)) ∧
    (st.status = "failed" →
      pollAux checks m fuel retries = (.error (.taskFailed st.status), j + 1)) := by
  intro j
  induction j with
  | zero =>
      intro fuel retries st hj hp hc
      match fuel, hj with
      | f + 1, _ =>
        rw [show retries + 0 = retries from rfl] at hc
        refine ⟨fun hcmp => ?_, fun hf => ?_⟩
        · simp only [pollAux, hc, if_pos hcmp]
        · have hne : st.status ≠ "completed" := by rw [hf]; decide
          simp only [pollAux, hc, if_neg hne, if_pos hf]
  | succ j ih =>
      intro fuel retries st hj hp hc
      match fuel, hj with
      | f + 1, hj =>
        obtain ⟨st0, hc0, h1, h2⟩ := by
          have := hp 0 (Nat.succ_pos j)
          rwa [show retries + 0 = retries from rfl] at this
        have hp' : ∀ i, i < j → pendingCheck (checks (retries + 1 + i)) := by
          intro i hi
          have h := hp (i + 1) (Nat.succ_lt_succ hi)
          rwa [show retries + (i + 1) = retries + 1 + i by omega] at h
        have hc' : checks (retries + 1 + j) = .ok st := by
          rwa [show retries + 1 + j = retries + (j + 1) by omega]
        have hrec := ih f (retries + 1) st (Nat.lt_of_succ_lt_succ hj) hp' hc'
        refine ⟨fun hcmp => ?_, fun hf => ?_⟩
        · simp only [pollAux, hc0, if_neg h1, if_neg h2, hrec.1 hcmp]
        · simp only [pollAux, hc0, if_neg h1, if_neg h2, hrec.2 hf]

/-- Claim C5: if every status check reports a non-terminal status (e.g.
`"processing"`), `create_index_and_poll` and `add_document_and_poll` with
`max_retries = n` perform exactly `n` status checks and then fail with the
max-retries `APIError` naming `n` (the spec's `PollTimeout`), which is a
different error from the `TaskFailed` one raised for status `"failed"`. -/
theorem C5_poll_exhaustion (headers : Headers) (filename : String)
    (transport : Headers → HttpResponse) (statusChecks : Nat → HttpResponse)
    (n : Nat) (r r' : TaskResponse)
    (hsub : (create_index headers filename transport).result = .ok r)
    (hsub' : (add_document headers filename transport).result = .ok r')
    (hp : ∀ i, ∃ st, get_task_status (statusChecks i) = .ok st ∧
        st.status ≠ "completed" ∧ st.status ≠ "failed") :
    create_index_and_poll headers filename transport statusChecks n =
      (.error (.maxRetriesReached n), n) ∧
    add_document_and_poll headers filename transport statusChecks n =
      (.error (.maxRetriesReached n), n) ∧
    ∀ s, SdkError.maxRetriesReached n ≠ .taskFailed s := by
  have hpoll : pollTask (fun i => get_task_status (statusChecks i)) n =
      (.error (.maxRetriesReached n), n) :=
    pollAux_pending_exhausts _ n hp n 0
  refine ⟨?_, ?_, fun _ => nofun⟩
  · simp only [create_index_and_poll, hsub, pollTask] at *
    simp only [hpoll]
  · simp only [add_document_and_poll, hsub', pollTask] at *
    simp only [hpoll]

/-- Sample fixture: a successful submission envelope
`{"data": {"message": "ok", "task_id": "t1", "check_status": "u"}}`. -/
def sampleSubmitResponse : HttpResponse :=
  ⟨200, some (.obj [("data", .obj [("message", .str "ok"),
    ("task_id", .str "t1"), ("check_status", .str "u")])])⟩

/-- Sample fixture: a status poll answering `{"status": "processing"}`. -/
def processingResponse : HttpResponse :=
  ⟨200, some (.obj [("status", .str "processing")])⟩

/-- Sample fixture: a status poll answering `{"status": "failed"}`. -/
def failedResponse : HttpResponse :=
  ⟨200, some (.obj [("status", .str "failed")])⟩

/-- Sample fixture: a status poll answering `{"status": "completed"}`. -/
def completedResponse : HttpResponse :=
  ⟨200, some (.obj [("status", .str "completed")])⟩

/-- Witness for C5: an always-`"processing"` job with `max_retries = 3`
reaches poll timeout after exactly 3 status checks, for both polling
entry points. -/
theorem C5_poll_exhaustion_witness :
    create_index_and_poll [] "doc.pdf" (fun _ => sampleSubmitResponse)
      (fun _ => processingResponse) 3 = (.error (.maxRetriesReached 3), 3) ∧
    add_document_and_poll [] "doc.pdf" (fun _ => sampleSubmitResponse)
      (fun _ => processingResponse) 3 = (.error (.maxRetriesReached 3), 3) := by
  have h := C5_poll_exhaustion [] "doc.pdf" (fun _ => sampleSubmitResponse)
    (fun _ => processingResponse) 3 ⟨⟨"ok", "t1", "u", []⟩⟩ ⟨⟨"ok", "t1", "u", []⟩⟩
    rfl rfl (fun _ => ⟨⟨"processing", none, []⟩, rfl, by decide, by decide⟩)
  exact ⟨h.1, h.2.1⟩

/-- Claim C6: with `j` pending checks before a terminal one — i.e. the
terminal status arrives on check number `k = j + 1` with `k ≤ max_retries` —
`create_index_and_poll` stops after exactly `k` status checks, performing no
further ones: `"failed"` raises the `TaskFailed` `APIError` carrying the
terminal status string, and `"completed"` returns the original submission
`TaskResponse` paired with the final `TaskStatus` snapshot. -/
theorem C6_poll_terminal (headers : Headers) (filename : String)
    (transport : Headers → HttpResponse) (statusChecks : Nat → HttpResponse)
    (max_retries j : Nat) (response : TaskResponse) (st : TaskStatus)
    (hj : j < max_retries)
    (hsub : (create_index headers filename transport).result = .ok response)
    (hp : ∀ i, i < j → ∃ st', get_task_status (statusChecks i) = .ok st' ∧
        st'.status ≠ "completed" ∧ st'.status ≠ "failed")
    (hc : get_task_status (statusChecks j) = .ok st) :
    (st.status = "failed" →
      create_index_and_poll headers filename transport statusChecks max_retries =
        (.error (.taskFailed st.status), j + 1)) ∧
    (st.status = "completed" →
      create_index_and_poll headers filename transport statusChecks max_retries =
        (.ok (response, st), j + 1)) := by
  have h := pollAux_stops (fun i => get_task_status (statusChecks i))
    max_retries j max_retries 0 st hj
    (fun i hi => by simpa using hp i hi) (by simpa using hc)
  refine ⟨fun hf => ?_, fun hcmp => ?_⟩
  · simp only [create_index_and_poll, hsub, pollTask, h.2 hf]
  · simp only [create_index_and_poll, hsub, pollTask, h.1 hcmp]

/-- Witness for C6: a job failing on poll 2 of a 5-max-retry budget stops
with `TaskFailed` after exactly 2 checks; a job completing on the first poll
returns the submission response and the final snapshot after exactly 1
check. -/
theorem C6_poll_terminal_witness :
    create_index_and_poll [] "doc.pdf" (fun _ => sampleSubmitResponse)
      (fun i => if i = 0 then processingResponse else failedResponse) 5 =
      (.error (.taskFailed "failed"), 2) ∧
    create_index_and_poll [] "doc.pdf" (fun _ => sampleSubmitResponse)
      (fun _ => completedResponse) 5 =
      (.ok (⟨⟨"ok", "t1", "u", []⟩⟩, ⟨"completed", none, []⟩), 1) := by
  constructor
  · exact (C6_poll_terminal [] "doc.pdf" (fun _ => sampleSubmitResponse)
      (fun i => if i = 0 then processingResponse else failedResponse) 5 1
      ⟨⟨"ok", "t1", "u", []⟩⟩ ⟨"failed", none, []⟩ (by omega) rfl
      (fun i hi => by
        have hi0 : i = 0 := by omega
        subst hi0
        exact ⟨⟨"processing", none, []⟩, rfl, by decide, by decide⟩)
      rfl).1 rfl
  · exact (C6_poll_terminal [] "doc.pdf" (fun _ => sampleSubmitResponse)
      (fun _ => completedResponse) 5 0
      ⟨⟨"ok", "t1", "u", []⟩⟩ ⟨"completed", none, []⟩ (by omega) rfl
      (fun i hi => absurd hi (by omega)) rfl).2 rfl

/-! ## Theorems: MIME pre-flight, header restoration, envelope access
(claims C7-C10) -/

/-- Claim C7, counterexample: `create_index` rejects `photo.jpg` before any
network call — yet its own error message literal ("Supported types are:
PDF, DOC, DOCX, JPG, PNG, TIFF, BMP") names JPG as supported, and omits the
PPT/PPTX types its allow-list actually accepts.  The error therefore does
not name "the allowed set" of the operation, refuting that part of the
claim: the named set and `create_index`'s `supported_types` differ in both
directions. -/
theorem C7_counterexample :
    (create_index [] "photo.jpg" (fun _ => ⟨200, none⟩)).result =
      .error (.unsupportedFileType "image/jpeg") ∧
    (create_index [] "photo.jpg" (fun _ => ⟨200, none⟩)).httpCalls = 0 ∧
    "image/jpeg" ∈ errorMessageNamedTypes ∧
    "image/jpeg" ∉ create_index_supported_types ∧
    "application/vnd.ms-powerpoint" ∈ create_index_supported_types ∧
    "application/vnd.ms-powerpoint" ∉ errorMessageNamedTypes :=
  ⟨rfl, rfl, by decide, by decide, by decide, by decide⟩

/-- Claim C7 (amended): for every filename whose inferred MIME type is not
in the operation's `supported_types` set, `create_index` and `add_document`
raise `ValueError(f"Unsupported file type: {mime_type}. Supported types
are: PDF, DOC, DOCX, JPG, PNG, TIFF, BMP")` naming the rejected MIME type,
before any network call — zero HTTP requests are performed.  The
"Supported types" listing in the message is a fixed literal shared by both
call sites; for `create_index` it does not coincide with the actual
allow-list (see the counterexample). -/
theorem C7_mime_preflight (headers : Headers) (filename : String)
    (transport : Headers → HttpResponse) :
    (get_mime_type filename ∉ create_index_supported_types →
      (create_index headers filename transport).result =
        .error (.unsupportedFileType (get_mime_type filename)) ∧
      (create_index headers filename transport).httpCalls = 0) ∧
    (get_mime_type filename ∉ add_document_supported_types →
      (add_document headers filename transport).result =
        .error (.unsupportedFileType (get_mime_type filename)) ∧
      (add_document headers filename transport).httpCalls = 0) := by
  refine ⟨fun h => ?_, fun h => ?_⟩
  · simp only [create_index, if_pos h]
    exact ⟨trivial, trivial⟩
  · simp only [add_document, if_pos h]
    exact ⟨trivial, trivial⟩

/-- Witness for C7: submitting `image.gif` to either upload call fails with
the unsupported-type `ValueError` naming `image/gif`, with zero HTTP
requests performed. -/
theorem C7_mime_preflight_witness :
    (create_index [] "image.gif" (fun _ => ⟨200, none⟩)).result =
      .error (.unsupportedFileType "image/gif") ∧
    (create_index [] "image.gif" (fun _ => ⟨200, none⟩)).httpCalls = 0 ∧
    (add_document [] "image.gif" (fun _ => ⟨200, none⟩)).result =
      .error (.unsupportedFileType "image/gif") ∧
    (add_document [] "image.gif" (fun _ => ⟨200, none⟩)).httpCalls = 0 := by
  have h := C7_mime_preflight [] "image.gif" (fun _ => ⟨200, none⟩)
  have h1 := h.1 (by decide)
  have h2 := h.2 (by decide)
  exact ⟨h1.1, h1.2, h2.1, h2.2⟩

/-- `List[Document]` validation fails with the pydantic error naming `id`
whenever at least one element (all of them mappings) lacks the `id` key. -/
theorem parseDocuments_missing_id :
    ∀ (xs : List Json),
    (∀ j ∈ xs, ∃ kvs, j = .obj kvs) →
    (∃ j ∈ xs, ∃ kvs, j = .obj kvs ∧ lookupKey "id" kvs = none) →
    parseDocuments xs = .error (.schemaError "id") := by
  intro xs
  induction xs with
  | nil =>
      intro _ hmiss
      obtain ⟨j, hj, _⟩ := hmiss
      cases hj
  | cons x rest ih =>
      intro hobj hmiss
      obtain ⟨kvs, hx⟩ := hobj x (List.mem_cons_self x rest)
      subst hx
      cases hlook : lookupKey "id" kvs with
      | none =>
          simp only [parseDocuments, parseDocument, requireStr, hlook, bind,
            Except.bind]
      | some v =>
          cases hv : asStr v with
          | none =>
              simp only [parseDocuments, parseDocument, requireStr, hlook, hv,
                bind, Except.bind]
          | some s =>
              have hrest : ∃ j ∈ rest, ∃ kvs', j = .obj kvs' ∧
                  lookupKey "id" kvs' = none := by
                obtain ⟨j, hj, kvs', hjo, hl⟩ := hmiss
                rcases List.mem_cons.mp hj with rfl | hjr
                · injection hjo with he
                  subst he
                  rw [hlook] at hl
                  cases hl
                · exact ⟨j, hjr, kvs', hjo, hl⟩
              have hr := ih (fun j hj => hobj j (List.mem_cons_of_mem _ hj)) hrest
              simp only [parseDocuments, parseDocument, requireStr, hlook, hv,
                bind, Except.bind, hr]

/-- Claim C8: for every document-list payload (a success-status response
whose `data.documents` is a sequence of mappings) in which at least one
element lacks the required `id` field, `get_documents` fails the whole call
with the pydantic validation error naming `id` — no partial list of
successfully mapped documents is returned. -/
theorem C8_missing_id_fails_whole_call (status : Nat)
    (kvs dkvs : List (String × Json)) (xs : List Json)
    (hst : ¬(400 ≤ status ∧ status < 600))
    (herr : lookupKey "error" kvs = none)
    (hdata : lookupKey "data" kvs = some (.obj dkvs))
    (hdocs : lookupKey "documents" dkvs = some (.arr xs))
    (hobj : ∀ j ∈ xs, ∃ k, j = .obj k)
    (hmiss : ∃ j ∈ xs, ∃ k, j = .obj k ∧ lookupKey "id" k = none) :
    get_documents ⟨status, some (.obj kvs)⟩ = .error (.schemaError "id") := by
  have h1 : handle_response ⟨status, some (.obj kvs)⟩ = .ok (.obj kvs) :=
    handle_response_ok status kvs hst (fun e he => by rw [herr] at he; cases he)
  have h2 := parseDocuments_missing_id xs hobj hmiss
  simp only [get_documents, h1, bind, Except.bind, pyGetItem, hdata,
    parseDocumentListData, hdocs, h2]

/-- Witness for C8: a two-element document list whose second element has no
`id` fails the call entirely with the error naming `id`. -/
theorem C8_missing_id_fails_whole_call_witness :
    get_documents ⟨200, some (.obj [("data", .obj
      [("documents", .arr [.obj [("id", .str "a")],
                           .obj [("created_at", .null)]]),
       ("index", .str "idx")])])⟩ = .error (.schemaError "id") := by
  refine C8_missing_id_fails_whole_call 200 _ _ _ (by omega) rfl rfl rfl ?_ ?_
  · intro j hj
    rcases List.mem_cons.mp hj with rfl | hj2
    · exact ⟨_, rfl⟩
    rcases List.mem_cons.mp hj2 with rfl | hj3
    · exact ⟨_, rfl⟩
    · cases hj3
  · exact ⟨.obj [("created_at", .null)],
      List.mem_cons_of_mem _ (List.mem_cons_self _ _),
      [("created_at", .null)], rfl, rfl⟩

/-- Claim C9: for every upload call that proceeds past the MIME pre-flight
(the inferred type is in the operation's allow-list), the session headers
after the call equal the headers before it.  In the embedding the `finally`
clause of the source is compiled into the single `headers :=
original_headers` field of the outcome, covering both the return path and
every raise path of the `try` body, so the equality holds whatever the
transport answers and however the body fails. -/
theorem C9_headers_restored (headers : Headers) (filename : String)
    (transport : Headers → HttpResponse) :
    (get_mime_type filename ∈ create_index_supported_types →
      (create_index headers filename transport).headers = headers) ∧
    (get_mime_type filename ∈ add_document_supported_types →
      (add_document headers filename transport).headers = headers) := by
  constructor
  · intro h
    simp only [create_index, if_neg (not_not_intro h)]
  · intro h
    simp only [add_document, if_neg (not_not_intro h)]

/-- Witness for C9: headers restored on an error path (undecodable 500
response body) and on a success path. -/
theorem C9_headers_restored_witness :
    (create_index [("Content-Type", "application/json")] "doc.pdf"
      (fun _ => ⟨500, none⟩)).headers =
      [("Content-Type", "application/json")] ∧
    (add_document [("Content-Type", "application/json")] "doc.pdf"
      (fun _ => sampleSubmitResponse)).headers =
      [("Content-Type", "application/json")] :=
  ⟨(C9_headers_restored [("Content-Type", "application/json")] "doc.pdf"
      (fun _ => ⟨500, none⟩)).1 (by decide),
   (C9_headers_restored [("Content-Type", "application/json")] "doc.pdf"
      (fun _ => sampleSubmitResponse)).2 (by decide)⟩

/-- Claim C10: for every submission or document-list response that passes
the normalizer (status outside 4xx/5xx, decodable mapping, no truthy
`error` key) but lacks a `data` key, the raw subscript
`response_data["data"]` in `create_index` (client.py:124), `add_document`
(client.py:161) and `get_documents` (client.py:98) raises a bare Python
`KeyError("data")` — which is neither the pydantic `SchemaError`
classification nor any `APIError`. -/
theorem C10_missing_data_keyerror (headers : Headers) (filename : String)
    (status : Nat) (kvs : List (String × Json))
    (transport : Headers → HttpResponse)
    (hst : ¬(400 ≤ status ∧ status < 600))
    (herr : lookupKey "error" kvs = none)
    (hdata : lookupKey "data" kvs = none)
    (htr : ∀ hs, transport hs = ⟨status, some (.obj kvs)⟩) :
    (get_mime_type filename ∈ create_index_supported_types →
      (create_index headers filename transport).result =
        .error (.keyError "data")) ∧
    (get_mime_type filename ∈ add_document_supported_types →
      (add_document headers filename transport).result =
        .error (.keyError "data")) ∧
    get_documents ⟨status, some (.obj kvs)⟩ = .error (.keyError "data") ∧
    (∀ f, SdkError.keyError "data" ≠ .schemaError f) ∧
    (∀ e s, SdkError.keyError "data" ≠ .apiErrorField e s) := by
  have h1 : handle_response ⟨status, some (.obj kvs)⟩ = .ok (.obj kvs) :=
    handle_response_ok status kvs hst (fun e he => by rw [herr] at he; cases he)
  have hget : pyGetItem (.obj kvs) "data" = .error (.keyError "data") := by
    simp only [pyGetItem, hdata]
  refine ⟨fun h => ?_, fun h => ?_, ?_, fun _ => nofun, fun _ _ => nofun⟩
  · simp only [create_index, if_neg (not_not_intro h), htr, h1, bind,
      Except.bind, hget]
  · simp only [add_document, if_neg (not_not_intro h), htr, h1, bind,
      Except.bind, hget]
  · simp only [get_documents, h1, bind, Except.bind, hget]

/-- Witness for C10: a 200 response `{"message": "ok"}` without a `data`
key makes `create_index` and `get_documents` fail with `KeyError("data")`. -/
theorem C10_missing_data_keyerror_witness :
    (create_index [] "doc.pdf"
      (fun _ => ⟨200, some (.obj [("message", .str "ok")])⟩)).result =
      .error (.keyError "data") ∧
    get_documents ⟨200, some (.obj [("message", .str "ok")])⟩ =
      .error (.keyError "data") := by
  have h := C10_missing_data_keyerror [] "doc.pdf" 200
    [("message", .str "ok")]
    (fun _ => ⟨200, some (.obj [("message", .str "ok")])⟩)
    (by omega) rfl rfl (fun _ => rfl)
  exact ⟨h.1 (by decide), h.2.2.1⟩
